import Mathlib

/-!
Verification development for BTCompiler.go, the single source file of the
BrewTroller Cloud Compiler Service. The Go code is embedded shallowly:
pure computations become Lean functions, and the request handler becomes a
function from an environment of external-effect results (temp-dir creation,
body read, JSON decode, cache contents, subprocess outcomes) to the ordered
trace of observable side effects plus the HTTP response.
-/

/-- Dynamic type of a Go interface value as it occurs in the option maps of
BTCompiler.go. Decoding with encoding/json.Unmarshal into an interface value
produces only str, float, bool, null, arr and obj (Unmarshal stores JSON
numbers as float64); the int constructor exists because the type switch in
BuildHandler (lines 293-301) has a case for values of dynamic type int. -/
inductive GoVal : Type
  | str (s : String)
  | int (n : Int)
  | float (q : ℚ)
  | bool (b : Bool)
  | null
  | arr (vs : List GoVal)
  | obj (fields : List (String × GoVal))

/-- Whether a dynamic type can be produced by json.Unmarshal into an
interface value: every type except int (JSON numbers arrive as float64). -/
def fromUnmarshal : GoVal → Bool
  | .int _ => false
  | _ => true

/-- Whether a Go interface value has dynamic type string. -/
def GoVal.isStr : GoVal → Bool
  | .str _ => true
  | _ => false

/-- Go map lookup, modelled on an association list (first matching key). -/
def lookupKV {α : Type} (k : String) : List (String × α) → Option α
  | [] => none
  | p :: rest => if p.1 = k then some p.2 else lookupKV k rest

/-- Model of the Go two-valued string type assertion optsMap[k].(string)
(lines 253 and 264): yields the string when the key holds a string value, and
signals not-found when the key is absent or holds any other dynamic type. -/
def getString (m : List (String × GoVal)) (k : String) : Option String :=
  match lookupKV k m with
  | some (GoVal.str s) => some s
  | _ => none

/-- BTCompiler.go lines 293-301: the type switch translating one option map
entry into a cmake flag; string and int values yield a flag, every other
dynamic type yields nothing. -/
def flagFor (k : String) : GoVal → Option String
  | .str s => some ("-D" ++ k ++ "=" ++ s)
  | .int n => some ("-D" ++ k ++ "=" ++ toString n)
  | _ => none

/-- Go delete of the BuildVersion key from the option map (line 287). -/
def deleteBuildVersion (m : List (String × GoVal)) : List (String × GoVal) :=
  m.filter fun p => p.1 != "BuildVersion"

/-- Lines 287-304: the argument list handed to the cmake configure step —
the translated entries of the option map with BuildVersion removed, followed
by the workspace path. -/
def cmakeOptsOf (m : List (String × GoVal)) (tempDir : String) : List String :=
  ((deleteBuildVersion m).filterMap fun p => flagFor p.1 p.2) ++ [tempDir]

/-- Result of Go fmt.Sprintf for the unknown verb sequence percent-i applied
to an int argument: fmt renders an unknown verb v on value x of type t as
percent, bang, v, then (t=x). -/
def goFmtI (i : Nat) : String := "%!i(int=" ++ toString i ++ ")"

/-- Entries added by the context loop of makeErrorResonse (lines 172-176):
for the i-th context string the key is Sprintf of context followed by the
invalid verb percent-i applied to i. -/
def contextEntries : Nat → List String → List (String × String)
  | _, [] => []
  | i, v :: rest => ("context" ++ goFmtI i, v) :: contextEntries (i + 1) rest

/-- makeErrorResonse (lines 154-182), producing the error response body as a
key-value map: the code field, then the message (the real error text in debug
mode, otherwise a generic text keyed on the code), then, in debug mode only,
one entry per context string. -/
def makeErrorResonse (debug : Bool) (code errMsg : String) (context : List String) : List (String × String) :=
  let base := [("code", code)]
  let withMsg :=
    if debug then base ++ [("message", errMsg)]
    else if code = "500" then base ++ [("message", "Internal Server Error")]
    else if code = "400" then base ++ [("message", "Bad Request")]
    else base
  if debug then withMsg ++ contextEntries 0 context else withMsg

/-- Success response body (lines 370-381): debug-mode diagnostic fields when
enabled, then always the binary field holding the artifact. -/
def buildResponse (debug : Bool) (reqID tempDir reqData cmakeOut makeOut binary : String) : List (String × String) :=
  (if debug then
      [("reqID", reqID), ("buildLocation", tempDir), ("reqDat", reqData),
       ("cmake-output", cmakeOut), ("make-output", makeOut)]
    else []) ++ [("binary", binary)]

/-- strings.Replace with a single-character pattern and count -1 replaces
every occurrence of that character, i.e. it is a character map. -/
def replaceChar (old new : Char) (s : String) : String :=
  String.mk (s.data.map fun c => if c = old then new else c)

/-- Lines 212-213: the temp-dir prefix derived from the remote address, with
every dot replaced by an underscore and every colon by a dash, then a
trailing dash appended. -/
def reqIDof (addr : String) : String :=
  replaceChar ':' '-' (replaceChar '.' '_' addr) ++ "-"

/-- Lines 86-90 of updateTags: the blank-removal loop. Go evaluates the range
expression once, so the loop runs for the original slice length (the fuel);
the body reads the current (reassigned) slice at index i, and removing the
element at i is take i followed by drop (i+1) of the current slice. A read
past the current length is a Go index-out-of-range panic, modelled as none. -/
def removeBlanksGo : Nat → Nat → List String → Option (List String)
  | 0, _, cur => some cur
  | fuel + 1, i, cur =>
    match cur.get? i with
    | none => none
    | some s =>
      if s = "" then removeBlanksGo fuel (i + 1) (cur.take i ++ cur.drop (i + 1))
      else removeBlanksGo fuel (i + 1) cur

/-- Lines 84-90: run the blank-removal loop over the split tag listing. -/
def removeBlanks (tags : List String) : Option (List String) :=
  removeBlanksGo tags.length 0 tags

/-- Lines 84-92: split the tag-command output on newlines and remove blanks,
yielding the version list handed to updateOptions (none models a panic). -/
def updateTagsVersions (listing : String) : Option (List String) :=
  removeBlanks (listing.splitOn "\n")

/-- Parsed content of an options.json file: a JSON array of objects, the Go
type being a slice of maps from string to interface values. -/
abbrev OptsList := List (List (String × GoVal))

/-- updateOptions (lines 100-132): rebuild the manifest from a version list.
Here rp ver models, for the mirror checked out at tag ver, ioutil.ReadFile of
the options file followed by json.Unmarshal; none covers both a missing or
unreadable file and a parse failure, in which case the loop continues without
adding the version. The manifest is the Go map built by repeated assignment,
modelled as a function updated per iteration. -/
def updateOptions (rp : String → Option OptsList) (versions : List String) : String → Option OptsList :=
  versions.foldl
    (fun m ver =>
      match rp ver with
      | none => m
      | some opts => fun k => if k = ver then some opts else m k)
    (fun _ => none)

/-- External-effect results consumed by one run of BuildHandler: the debug
flag, the caller address, the outcome of creating the temp workspace, of
reading the body, of decoding it, the options cache, and the outcomes of the
user-config write, the cmake and make subprocesses (combined output paired
with an error for a non-zero exit), and the artifact read. -/
structure Env where
  debugMode : Bool
  remoteAddr : String
  tempDir : Except String String
  body : Except String String
  parse : Except String (List (String × GoVal))
  cache : String → Option OptsList
  writeFile : Except String Unit
  cmake : String × Option String
  make : String × Option String
  binary : Except String String

/-- Observable side effects of one run of BuildHandler, in order. -/
inductive Event : Type
  | createTempDir (pfx dir : String)
  | removeAll (dir : String)
  | gitClone
  | gitCheckout (ver : String)
  | mkBuildDir
  | writeUserConfig
  | cmakeConfigure (opts : List String)
  | makeBuild
  | readBinary (board : String)
  | respond (status : Nat) (body : List (String × String))

/-- HTTP response: status code and JSON body as a key-value map. -/
structure Response where
  status : Nat
  body : List (String × String)

/-- Error exit from BuildHandler: write the error response, then run the
deferred removal of the workspace (the defer of line 225 fires after the
handler returns, hence after the response is written). -/
def errExit (events : List Event) (tempDir : String) (debug : Bool) (status : Nat) (code errMsg : String) (ctx : List String) : List Event × Response :=
  let b := makeErrorResonse debug code errMsg ctx
  (events ++ [Event.respond status b, Event.removeAll tempDir], ⟨status, b⟩)

/-- BuildHandler (lines 209-387): the whole request pipeline. Mirrors the Go
control flow: temp-dir creation first (failure is a 500 with no deferred
cleanup registered), then body read (500 on failure), JSON decode (400 on
failure), the board and BuildVersion string assertions (400 with a
must-be-supplied message), the cache membership test (400 naming the
version), then flag translation, clone, checkout, build-dir creation,
user-config write (500 on failure), cmake (500 with its combined output as
context on non-zero exit), make (likewise), artifact read (500 on failure)
and finally the success response. -/
def BuildHandler (env : Env) : List Event × Response :=
  let reqID := reqIDof env.remoteAddr
  match env.tempDir with
  | Except.error e =>
      let b := makeErrorResonse env.debugMode "500" e []
      ([Event.respond 500 b], ⟨500, b⟩)
  | Except.ok tempDir =>
    let created := [Event.createTempDir reqID tempDir]
    match env.body with
    | Except.error e => errExit created tempDir env.debugMode 500 "500" e []
    | Except.ok reqData =>
      match env.parse with
      | Except.error e => errExit created tempDir env.debugMode 400 "400" e []
      | Except.ok optsMap =>
        match getString optsMap "board" with
        | none => errExit created tempDir env.debugMode 400 "400" "Board Option Must be Supplied!" []
        | some board =>
          match getString optsMap "BuildVersion" with
          | none => errExit created tempDir env.debugMode 400 "400" "Build Version Must be Supplied!" []
          | some version =>
            if (env.cache version).isSome then
              let cmakeOpts := cmakeOptsOf optsMap tempDir
              let events := created ++ [Event.gitClone, Event.gitCheckout version, Event.mkBuildDir, Event.writeUserConfig]
              match env.writeFile with
              | Except.error e => errExit events tempDir env.debugMode 500 "500" e []
              | Except.ok _ =>
                let events := events ++ [Event.cmakeConfigure cmakeOpts]
                match env.cmake with
                | (cmakeOut, some e) => errExit events tempDir env.debugMode 500 "500" e [cmakeOut]
                | (cmakeOut, none) =>
                  let events := events ++ [Event.makeBuild]
                  match env.make with
                  | (makeOut, some e) => errExit events tempDir env.debugMode 500 "500" e [makeOut]
                  | (makeOut, none) =>
                    let events := events ++ [Event.readBinary board]
                    match env.binary with
                    | Except.error e => errExit events tempDir env.debugMode 500 "500" e []
                    | Except.ok bin =>
                      let resp := buildResponse env.debugMode reqID tempDir reqData cmakeOut makeOut bin
                      (events ++ [Event.respond 200 resp, Event.removeAll tempDir], ⟨200, resp⟩)
            else
              errExit created tempDir env.debugMode 400 "400" ("Build Version " ++ version ++ " is invalid!") []

/-- Whether a trace contains a build-toolchain step, i.e. a cmake configure
invocation or a make invocation. -/
def invokesToolchain (tr : List Event) : Bool :=
  tr.any fun e =>
    match e with
    | Event.cmakeConfigure _ => true
    | Event.makeBuild => true
    | _ => false

/-- Fold characterisation of updateOptions: the manifest built over an
accumulator maps v to its parsed options when v occurs in the list and its
file read and parsed, and otherwise leaves the accumulator's entry. -/
theorem updateOptions_foldl (rp : String → Option OptsList) (vs : List String)
    (m : String → Option OptsList) (v : String) :
    vs.foldl
      (fun m ver =>
        match rp ver with
        | none => m
        | some opts => fun k => if k = ver then some opts else m k) m v
    = if v ∈ vs ∧ (rp v).isSome then rp v else m v := by
  induction vs generalizing m with
  | nil => simp
  | cons a rest ih =>
    simp only [List.foldl_cons, ih, List.mem_cons]
    rcases hra : rp a with _ | o
    · by_cases hva : v = a
      · subst hva
        simp [hra]
      · simp [hva]
    · by_cases hva : v = a
      · subst hva
        simp [hra]
      · simp [hva, hra]

/-- C3: after a refresher rebuild of the cache from any version-tag list, the
manifest maps each tag v to its parsed options exactly when v is among the
tags and its options file could be read and parsed (rp v is some); a tag with
a missing or unparsable file, or outside the list, is absent, and each tag's
entry depends only on that tag's own read result. -/
theorem c3_update_options_keys (rp : String → Option OptsList) (vs : List String) (v : String) :
    updateOptions rp vs v = if v ∈ vs then rp v else none := by
  unfold updateOptions
  rw [updateOptions_foldl]
  by_cases h : v ∈ vs
  · rcases hrv : rp v with _ | o
    · simp [h, hrv]
    · simp [h, hrv]
  · simp [h]

/-- C2: string-valued entries become flags and other dynamic types
contribute nothing, as claimed; but an integer-valued request entry also
contributes no flag, because json.Unmarshal stores JSON numbers in interface
values as float64, so the int case of the type switch never fires on request
data. A value of dynamic type int would produce the claimed flag, showing the
case is intended but dead. -/
theorem c2_int_flags_dropped :
    fromUnmarshal (GoVal.float 5) = true ∧
    flagFor "boilPower" (GoVal.float 5) = none ∧
    flagFor "boilPower" (GoVal.int 5) = some "-DboilPower=5" ∧
    cmakeOptsOf
        [("board", GoVal.str "mega2560"), ("BuildVersion", GoVal.str "v1.0.0"),
         ("boilPower", GoVal.float 5)] "/tmp/w"
      = ["-Dboard=mega2560", "/tmp/w"] :=
  ⟨rfl, rfl, rfl, rfl⟩

/-- C5: outside debug mode the error body is exactly the code plus the
generic message for the class; in debug mode the message is the real error
text, but each context string is stored under a key rendered from the invalid
format verb percent-i, not under the contextN key the claim states. -/
theorem c5_context_key_eval :
    makeErrorResonse false "400" "detail" ["out0"] = [("code", "400"), ("message", "Bad Request")] ∧
    makeErrorResonse false "500" "detail" ["out0"] = [("code", "500"), ("message", "Internal Server Error")] ∧
    makeErrorResonse true "500" "detail" ["out0", "out1"]
      = [("code", "500"), ("message", "detail"),
         ("context%!i(int=0)", "out0"), ("context%!i(int=1)", "out1")] ∧
    ((makeErrorResonse true "500" "detail" ["out0", "out1"]).all
        fun kv => kv.1 != "context0" && kv.1 != "context1") = true :=
  ⟨rfl, rfl, rfl, rfl⟩

/-- C6: on the typical listing, whose only blank entry is the trailing one
produced by the final newline, the loop returns exactly the non-blank entries
in order; but on a listing with a blank in an interior position the loop,
which ranges over the original length while shrinking the slice, reads past
the end: a Go index-out-of-range panic, where the claim expects the non-blank
entries. -/
theorem c6_remove_blanks_eval :
    removeBlanks ["v1.0.0", "v1.1.0", ""] = some ["v1.0.0", "v1.1.0"] ∧
    removeBlanks ["", "v1.0.0"] = none ∧
    ["", "v1.0.0"].filter (fun s => s != "") = ["v1.0.0"] :=
  ⟨rfl, rfl, rfl⟩

/-- Append on strings concatenates the underlying character lists. -/
theorem data_append (s t : String) : (s ++ t).data = s.data ++ t.data := rfl

/-- One character pushed through both substitutions is never a dot and never
a colon. -/
theorem sanitize_char_ne (c : Char) :
    (if (if c = '.' then '_' else c) = ':' then '-' else if c = '.' then '_' else c) ≠ '.' ∧
    (if (if c = '.' then '_' else c) = ':' then '-' else if c = '.' then '_' else c) ≠ ':' := by
  by_cases h1 : c = '.'
  · subst h1
    decide
  · by_cases h2 : c = ':'
    · subst h2
      decide
    · simp only [if_neg h1, if_neg h2]
      exact ⟨h1, h2⟩

/-- C8: for every remote address, the workspace-name prefix — the address
with dots replaced by underscores and colons by dashes, plus a trailing
dash — contains no dot and no colon. -/
theorem c8_sanitized_prefix (addr : String) :
    ('.' ∉ (reqIDof addr).data) ∧ (':' ∉ (reqIDof addr).data) := by
  have hd : (reqIDof addr).data
      = ((addr.data.map fun c => if c = '.' then '_' else c).map
          fun c => if c = ':' then '-' else c) ++ ['-'] := rfl
  rw [hd, List.map_map]
  constructor
  · intro hmem
    rcases List.mem_append.1 hmem with h | h
    · rcases List.mem_map.1 h with ⟨c, _, hc⟩
      exact (sanitize_char_ne c).1 hc
    · simp at h
  · intro hmem
    rcases List.mem_append.1 hmem with h | h
    · rcases List.mem_map.1 h with ⟨c, _, hc⟩
      exact (sanitize_char_ne c).2 hc
    · simp at h

/-- Successful map lookup exhibits the key-value pair in the list. -/
theorem lookupKV_mem {α : Type} {k : String} {m : List (String × α)} {v : α}
    (h : lookupKV k m = some v) : (k, v) ∈ m := by
  induction m with
  | nil => exact absurd h (by simp [lookupKV])
  | cons p rest ih =>
    rw [lookupKV] at h
    by_cases hp : p.1 = k
    · rw [if_pos hp] at h
      obtain ⟨p1, p2⟩ := p
      cases hp
      cases h
      exact List.mem_cons_self _ _
    · rw [if_neg hp] at h
      exact List.mem_cons_of_mem _ (ih h)

/-- C10: only the BuildVersion key is removed before flag translation, so for
every option map holding board as the string b, the flag list handed to the
configure step contains the flag -Dboard=b. -/
theorem c10_board_flag_included (m : List (String × GoVal)) (b dir : String)
    (h : lookupKV "board" m = some (GoVal.str b)) :
    ("-Dboard=" ++ b) ∈ cmakeOptsOf m dir := by
  have hm : ("board", GoVal.str b) ∈ m := lookupKV_mem h
  have hf : ("board", GoVal.str b) ∈ deleteBuildVersion m := by
    rw [deleteBuildVersion, List.mem_filter]
    exact ⟨hm, rfl⟩
  apply List.mem_append_left
  rw [List.mem_filterMap]
  exact ⟨("board", GoVal.str b), hf, rfl⟩

/-- Witness for C10: a concrete validated request whose board is mega2560
gets the flag -Dboard=mega2560 passed to the configure step. -/
theorem c10_witness :
    ("-Dboard=" ++ "mega2560")
      ∈ cmakeOptsOf [("board", GoVal.str "mega2560"), ("BuildVersion", GoVal.str "v1.0.0")] "/tmp/w" :=
  c10_board_flag_included [("board", GoVal.str "mega2560"), ("BuildVersion", GoVal.str "v1.0.0")]
    "mega2560" "/tmp/w" rfl

/-- Run of BuildHandler when the body parses but the board string assertion
fails: workspace creation, then the 400 response, then the deferred removal. -/
theorem buildHandler_board_missing (env : Env) (d r : String) (m : List (String × GoVal))
    (h1 : env.tempDir = Except.ok d) (h2 : env.body = Except.ok r) (h3 : env.parse = Except.ok m)
    (hb : getString m "board" = none) :
    BuildHandler env
      = ([Event.createTempDir (reqIDof env.remoteAddr) d,
          Event.respond 400 (makeErrorResonse env.debugMode "400" "Board Option Must be Supplied!" []),
          Event.removeAll d],
         ⟨400, makeErrorResonse env.debugMode "400" "Board Option Must be Supplied!" []⟩) := by
  simp [BuildHandler, h1, h2, h3, hb, errExit]

/-- Run of BuildHandler when board is a string but the BuildVersion string
assertion fails: workspace creation, the 400 response, the deferred removal. -/
theorem buildHandler_version_missing (env : Env) (d r : String) (m : List (String × GoVal)) (b : String)
    (h1 : env.tempDir = Except.ok d) (h2 : env.body = Except.ok r) (h3 : env.parse = Except.ok m)
    (hb : getString m "board" = some b) (hv : getString m "BuildVersion" = none) :
    BuildHandler env
      = ([Event.createTempDir (reqIDof env.remoteAddr) d,
          Event.respond 400 (makeErrorResonse env.debugMode "400" "Build Version Must be Supplied!" []),
          Event.removeAll d],
         ⟨400, makeErrorResonse env.debugMode "400" "Build Version Must be Supplied!" []⟩) := by
  simp [BuildHandler, h1, h2, h3, hb, hv, errExit]

/-- Run of BuildHandler when both fields are strings but the version is not a
cache key: workspace creation, the 400 response naming the version in its
error, the deferred removal. -/
theorem buildHandler_invalid_version (env : Env) (d r : String) (m : List (String × GoVal)) (b v : String)
    (h1 : env.tempDir = Except.ok d) (h2 : env.body = Except.ok r) (h3 : env.parse = Except.ok m)
    (hb : getString m "board" = some b) (hv : getString m "BuildVersion" = some v)
    (hc : env.cache v = none) :
    BuildHandler env
      = ([Event.createTempDir (reqIDof env.remoteAddr) d,
          Event.respond 400 (makeErrorResonse env.debugMode "400" ("Build Version " ++ v ++ " is invalid!") []),
          Event.removeAll d],
         ⟨400, makeErrorResonse env.debugMode "400" ("Build Version " ++ v ++ " is invalid!") []⟩) := by
  simp [BuildHandler, h1, h2, h3, hb, hv, hc, errExit]

/-- C1 is false as stated: outside debug mode (the default) the 400 body for
an unknown BuildVersion carries the generic Bad Request message, which does
not name the offending version string v9.9.9. -/
theorem c1_counterexample :
    (BuildHandler
        ⟨false, "1.2.3.4:5", Except.ok "/tmp/w", Except.ok "raw",
         Except.ok [("board", GoVal.str "mega2560"), ("BuildVersion", GoVal.str "v9.9.9")],
         (fun v => if v = "v1.0.0" then some [] else none),
         Except.ok (), ("", none), ("", none), Except.ok ""⟩).2
      = ⟨400, [("code", "400"), ("message", "Bad Request")]⟩ ∧
    ¬ ("v9.9.9".data <:+: "Bad Request".data) :=
  ⟨rfl, by decide⟩

/-- C1 amended: a request whose BuildVersion is absent from the cache always
gets a 400 and never triggers a cmake or make step; the error handed to the
response formatter names the version, so the response message names it in
debug mode, while outside debug mode the body carries the generic Bad Request
message instead. -/
theorem c1_amended_invalid_version (env : Env) (d r : String) (m : List (String × GoVal)) (b v : String)
    (h1 : env.tempDir = Except.ok d) (h2 : env.body = Except.ok r) (h3 : env.parse = Except.ok m)
    (hb : getString m "board" = some b) (hv : getString m "BuildVersion" = some v)
    (hc : env.cache v = none) :
    (BuildHandler env).2
      = ⟨400, makeErrorResonse env.debugMode "400" ("Build Version " ++ v ++ " is invalid!") []⟩ ∧
    invokesToolchain (BuildHandler env).1 = false ∧
    makeErrorResonse true "400" ("Build Version " ++ v ++ " is invalid!") []
      = [("code", "400"), ("message", "Build Version " ++ v ++ " is invalid!")] ∧
    makeErrorResonse false "400" ("Build Version " ++ v ++ " is invalid!") []
      = [("code", "400"), ("message", "Bad Request")] := by
  rw [buildHandler_invalid_version env d r m b v h1 h2 h3 hb hv hc]
  exact ⟨rfl, rfl, rfl, rfl⟩

/-- Concrete debug-mode environment with an unknown BuildVersion v9.9.9. -/
def envC1W : Env :=
  ⟨true, "1.2.3.4:5", Except.ok "/tmp/w", Except.ok "raw",
   Except.ok [("board", GoVal.str "mega2560"), ("BuildVersion", GoVal.str "v9.9.9")],
   (fun v => if v = "v1.0.0" then some [] else none),
   Except.ok (), ("", none), ("", none), Except.ok ""⟩

/-- Witness for the amended C1 at a concrete debug-mode request whose
BuildVersion v9.9.9 is not in the cache. -/
theorem c1_witness :
    (BuildHandler envC1W).2
      = ⟨400, makeErrorResonse envC1W.debugMode "400" ("Build Version " ++ "v9.9.9" ++ " is invalid!") []⟩ ∧
    invokesToolchain (BuildHandler envC1W).1 = false ∧
    makeErrorResonse true "400" ("Build Version " ++ "v9.9.9" ++ " is invalid!") []
      = [("code", "400"), ("message", "Build Version " ++ "v9.9.9" ++ " is invalid!")] ∧
    makeErrorResonse false "400" ("Build Version " ++ "v9.9.9" ++ " is invalid!") []
      = [("code", "400"), ("message", "Bad Request")] :=
  c1_amended_invalid_version envC1W "/tmp/w" "raw"
    [("board", GoVal.str "mega2560"), ("BuildVersion", GoVal.str "v9.9.9")]
    "mega2560" "v9.9.9" rfl rfl rfl rfl rfl rfl

/-- C4 is false as stated: on a request missing the board field, the
workspace directory is created first (the first event of the trace) and the
400 response is produced afterwards, followed by the deferred removal — not
before any workspace exists. -/
theorem c4_counterexample :
    BuildHandler
        ⟨false, "1.2.3.4:5", Except.ok "/tmp/w", Except.ok "raw",
         Except.ok [("TEMP_UNIT", GoVal.str "F")],
         (fun _ => none), Except.ok (), ("", none), ("", none), Except.ok ""⟩
      = ([Event.createTempDir "1_2_3_4-5-" "/tmp/w",
          Event.respond 400 [("code", "400"), ("message", "Bad Request")],
          Event.removeAll "/tmp/w"],
         ⟨400, [("code", "400"), ("message", "Bad Request")]⟩) := rfl

/-- C4 amended: a request missing the board field, or missing the
BuildVersion field, gets a 400 with a must-be-supplied message and no
toolchain step; the workspace directory is created at the start of the
handler, before the body is even parsed, and its deferred removal runs after
the 400 response is written. -/
theorem c4_amended_missing_field (env : Env) (d r : String) (m : List (String × GoVal))
    (h1 : env.tempDir = Except.ok d) (h2 : env.body = Except.ok r) (h3 : env.parse = Except.ok m) :
    (getString m "board" = none →
      BuildHandler env
        = ([Event.createTempDir (reqIDof env.remoteAddr) d,
            Event.respond 400 (makeErrorResonse env.debugMode "400" "Board Option Must be Supplied!" []),
            Event.removeAll d],
           ⟨400, makeErrorResonse env.debugMode "400" "Board Option Must be Supplied!" []⟩)) ∧
    (∀ b, getString m "board" = some b → getString m "BuildVersion" = none →
      BuildHandler env
        = ([Event.createTempDir (reqIDof env.remoteAddr) d,
            Event.respond 400 (makeErrorResonse env.debugMode "400" "Build Version Must be Supplied!" []),
            Event.removeAll d],
           ⟨400, makeErrorResonse env.debugMode "400" "Build Version Must be Supplied!" []⟩)) := by
  constructor
  · intro hb
    exact buildHandler_board_missing env d r m h1 h2 h3 hb
  · intro b hb hv
    exact buildHandler_version_missing env d r m b h1 h2 h3 hb hv

/-- Concrete environment whose parsed body has no board field. -/
def envC4W : Env :=
  ⟨true, "9.8.7.6:42", Except.ok "/tmp/c4", Except.ok "raw",
   Except.ok [("TEMP_UNIT", GoVal.str "F")],
   (fun _ => none), Except.ok (), ("", none), ("", none), Except.ok ""⟩

/-- Witness for the amended C4 at a concrete request missing board. -/
theorem c4_witness :
    BuildHandler envC4W
      = ([Event.createTempDir (reqIDof envC4W.remoteAddr) "/tmp/c4",
          Event.respond 400 (makeErrorResonse envC4W.debugMode "400" "Board Option Must be Supplied!" []),
          Event.removeAll "/tmp/c4"],
         ⟨400, makeErrorResonse envC4W.debugMode "400" "Board Option Must be Supplied!" []⟩) :=
  (c4_amended_missing_field envC4W "/tmp/c4" "raw" [("TEMP_UNIT", GoVal.str "F")]
    rfl rfl rfl).1 rfl

/-- A key holding a value that is not a string fails the Go string type
assertion exactly like an absent key. -/
theorem getString_none {m : List (String × GoVal)} {k : String} {v : GoVal}
    (h : lookupKV k m = some v) (hv : v.isStr = false) : getString m k = none := by
  rw [getString, h]
  cases v <;> simp_all [GoVal.isStr]

/-- C9: a board key, or a BuildVersion key, holding a present but non-string
value is treated exactly as if the key were missing: the handler returns the
same 400 must-be-supplied response. -/
theorem c9_nonstring_treated_missing (env : Env) (d r : String) (m : List (String × GoVal))
    (h1 : env.tempDir = Except.ok d) (h2 : env.body = Except.ok r) (h3 : env.parse = Except.ok m) :
    (∀ v, lookupKV "board" m = some v → v.isStr = false →
      (BuildHandler env).2
        = ⟨400, makeErrorResonse env.debugMode "400" "Board Option Must be Supplied!" []⟩) ∧
    (∀ b v, lookupKV "board" m = some (GoVal.str b) →
      lookupKV "BuildVersion" m = some v → v.isStr = false →
      (BuildHandler env).2
        = ⟨400, makeErrorResonse env.debugMode "400" "Build Version Must be Supplied!" []⟩) := by
  constructor
  · intro v hvv hvs
    rw [buildHandler_board_missing env d r m h1 h2 h3 (getString_none hvv hvs)]
  · intro b v hbb hvv hvs
    have hgb : getString m "board" = some b := by
      rw [getString, hbb]
    rw [buildHandler_version_missing env d r m b h1 h2 h3 hgb (getString_none hvv hvs)]

/-- Concrete environment whose board field is the JSON number 1, decoded by
Unmarshal as a float64 value. -/
def envC9W : Env :=
  ⟨false, "addr", Except.ok "/tmp/c9", Except.ok "raw",
   Except.ok [("board", GoVal.float 1), ("BuildVersion", GoVal.str "v1.0.0")],
   (fun _ => none), Except.ok (), ("", none), ("", none), Except.ok ""⟩

/-- Witness for C9 at a concrete request whose board value is a number. -/
theorem c9_witness :
    (BuildHandler envC9W).2
      = ⟨400, makeErrorResonse envC9W.debugMode "400" "Board Option Must be Supplied!" []⟩ :=
  (c9_nonstring_treated_missing envC9W "/tmp/c9" "raw"
    [("board", GoVal.float 1), ("BuildVersion", GoVal.str "v1.0.0")] rfl rfl rfl).1
    (GoVal.float 1) rfl rfl

/-- Run of BuildHandler on the all-steps-succeed path: clone, checkout,
build-dir creation, user-config write, cmake, make, artifact read, the 200
response, the deferred removal. -/
theorem buildHandler_success (env : Env) (d r : String) (m : List (String × GoVal)) (b v : String)
    (opts : OptsList) (co mo bin : String)
    (h1 : env.tempDir = Except.ok d) (h2 : env.body = Except.ok r) (h3 : env.parse = Except.ok m)
    (hb : getString m "board" = some b) (hv : getString m "BuildVersion" = some v)
    (hc : env.cache v = some opts) (hw : env.writeFile = Except.ok ())
    (hcm : env.cmake = (co, none)) (hmk : env.make = (mo, none)) (hbin : env.binary = Except.ok bin) :
    BuildHandler env
      = ([Event.createTempDir (reqIDof env.remoteAddr) d,
          Event.gitClone, Event.gitCheckout v, Event.mkBuildDir, Event.writeUserConfig,
          Event.cmakeConfigure (cmakeOptsOf m d), Event.makeBuild, Event.readBinary b,
          Event.respond 200 (buildResponse env.debugMode (reqIDof env.remoteAddr) d r co mo bin),
          Event.removeAll d],
         ⟨200, buildResponse env.debugMode (reqIDof env.remoteAddr) d r co mo bin⟩) := by
  simp [BuildHandler, h1, h2, h3, hb, hv, hc, hw, hcm, hmk, hbin]

/-- C7: a request that reaches a successful build gets a 200 whose body
always holds the binary field with the artifact; with debug off the body is
exactly that one field, and with debug on it additionally holds the workspace
location, the raw request data, and the captured cmake and make outputs. -/
theorem c7_success_envelope (env : Env) (d r : String) (m : List (String × GoVal)) (b v : String)
    (opts : OptsList) (co mo bin : String)
    (h1 : env.tempDir = Except.ok d) (h2 : env.body = Except.ok r) (h3 : env.parse = Except.ok m)
    (hb : getString m "board" = some b) (hv : getString m "BuildVersion" = some v)
    (hc : env.cache v = some opts) (hw : env.writeFile = Except.ok ())
    (hcm : env.cmake = (co, none)) (hmk : env.make = (mo, none)) (hbin : env.binary = Except.ok bin) :
    (BuildHandler env).2
      = ⟨200, buildResponse env.debugMode (reqIDof env.remoteAddr) d r co mo bin⟩ ∧
    lookupKV "binary" (buildResponse env.debugMode (reqIDof env.remoteAddr) d r co mo bin) = some bin ∧
    buildResponse false (reqIDof env.remoteAddr) d r co mo bin = [("binary", bin)] ∧
    buildResponse true (reqIDof env.remoteAddr) d r co mo bin
      = [("reqID", reqIDof env.remoteAddr), ("buildLocation", d), ("reqDat", r),
         ("cmake-output", co), ("make-output", mo), ("binary", bin)] := by
  rw [buildHandler_success env d r m b v opts co mo bin h1 h2 h3 hb hv hc hw hcm hmk hbin]
  refine ⟨rfl, ?_, rfl, rfl⟩
  cases h : env.debugMode
  · rfl
  · rfl

/-- Concrete debug-mode environment on which every pipeline step succeeds. -/
def envC7W : Env :=
  ⟨true, "1.2.3.4:5", Except.ok "/tmp/c7", Except.ok "rawbody",
   Except.ok [("board", GoVal.str "mega2560"), ("BuildVersion", GoVal.str "v1.0.0"),
              ("TEMP_UNIT", GoVal.str "F")],
   (fun v => if v = "v1.0.0" then some [] else none),
   Except.ok (), ("cmake ok", none), ("make ok", none), Except.ok "HEXDATA"⟩

/-- Witness for C7 at a concrete fully successful build request. -/
theorem c7_witness :
    (BuildHandler envC7W).2
      = ⟨200, buildResponse envC7W.debugMode (reqIDof envC7W.remoteAddr) "/tmp/c7" "rawbody"
          "cmake ok" "make ok" "HEXDATA"⟩ ∧
    lookupKV "binary" (buildResponse envC7W.debugMode (reqIDof envC7W.remoteAddr) "/tmp/c7" "rawbody"
          "cmake ok" "make ok" "HEXDATA") = some "HEXDATA" ∧
    buildResponse false (reqIDof envC7W.remoteAddr) "/tmp/c7" "rawbody" "cmake ok" "make ok" "HEXDATA"
      = [("binary", "HEXDATA")] ∧
    buildResponse true (reqIDof envC7W.remoteAddr) "/tmp/c7" "rawbody" "cmake ok" "make ok" "HEXDATA"
      = [("reqID", reqIDof envC7W.remoteAddr), ("buildLocation", "/tmp/c7"), ("reqDat", "rawbody"),
         ("cmake-output", "cmake ok"), ("make-output", "make ok"), ("binary", "HEXDATA")] :=
  c7_success_envelope envC7W "/tmp/c7" "rawbody"
    [("board", GoVal.str "mega2560"), ("BuildVersion", GoVal.str "v1.0.0"),
     ("TEMP_UNIT", GoVal.str "F")]
    "mega2560" "v1.0.0" [] "cmake ok" "make ok" "HEXDATA"
    rfl rfl rfl rfl rfl rfl rfl rfl rfl rfl
